import Mathlib

/-!
Shallow embedding of the refund-agent conversation workflow
(`src/Try/agent.py` plus the turn handling in `src/Try/main.py`).

The LangGraph state channel `conversation_history` is declared with
`operator.add`, so the value a node returns for that key is a *delta*
that the engine appends to the channel; every other key is a
last-value channel that the node's returned value replaces.  Node
functions below therefore return the raw Python dict (with
`conversation_history` holding whatever the node last assigned to that
key, or the full inbound history when it never assigned it), and
`stepHist` performs the engine-side append.

External collaborators (text classifier, vision verifier, notification
sender) are opaque oracles passed as function parameters, following the
interfaces in the spec; Python regular expressions are modelled by
executable matchers over `List Char` with Python's leftmost search and
greedy backtracking semantics, restricted to ASCII word characters.
Crashing paths (KeyError / attribute access on None) are modelled with
`Option`: `none` means the walk raises and the HTTP layer keeps the
session's last-good state.
-/

/-- One `{role, content}` entry of `conversation_history`. -/
structure Msg where
  role : String
  content : String
deriving DecidableEq

/-- An image verdict dict: the two keys the core reads, each possibly
absent (`verdict.get` returns None for an absent key). -/
structure Verdict where
  status : Option String
  description : Option String
deriving DecidableEq

/-- One item of an order record, as used to build the vision context. -/
structure OrderItem where
  name : String
  quantity : Nat
deriving DecidableEq

/-- An order record from `data/orders.json` (only the `items` key is
read by the core). -/
structure OrderRec where
  items : List OrderItem
deriving DecidableEq

/-- The `AgentState` TypedDict of `src/Try/agent.py`. -/
structure AgentState where
  session_id : String
  user_message : String
  sentiment_score : Int
  intent : String
  language : String
  order_id : Option String
  complaint : Option String
  image_path : Option String
  image_verdict : Option Verdict
  refund_status : String
  email : Option String
  current_node : String
  response_message : String
  needs_input : Bool
  conversation_history : List Msg
deriving DecidableEq

/-- One entry appended to `refunds.json` by the finalizer. -/
structure LedgerEntry where
  session_id : String
  order_id : Option String
  status : String
  email : Option String
deriving DecidableEq

/-- The text classifier's verdict (`SentimentIntentAnalyzer.analyze`). -/
structure Analysis where
  intent : String
  sentiment_score : Int
  language : String
deriving DecidableEq

/-- One inbound HTTP unit of the `/chat` endpoint: optional message,
optional uploaded-image reference, optional email form field. -/
structure Inbound where
  message : Option String
  image : Option String
  email : Option String
deriving DecidableEq

/-- Python truthiness of an optional string (`None` and `""` are falsy). -/
def optTruthy : Option String → Bool
  | none => false
  | some t => !t.isEmpty

/-- Python truthiness of `state.get("image_verdict")`: `None` and the
empty dict are falsy; a dict carrying a status or a description is
truthy. -/
def verdictTruthy : Option Verdict → Bool
  | none => false
  | some v => v.status.isSome || v.description.isSome

/-- Rendering of an optional string inside a Python f-string
(`None` prints as `None`). -/
def optStr : Option String → String
  | none => "None"
  | some t => t

/-- A single-quote character as a string (used inside messages built
with f-strings in the source). -/
def sqt : String := String.mk ['\'']

/-- ASCII model of the regex class `\w`. -/
def isWordChar (c : Char) : Bool := c.isAlpha || c.isDigit || c = '_'

/-- ASCII model of the regex class `[\w\.-]`. -/
def isEmailChar (c : Char) : Bool := isWordChar c || c = '.' || c = '-'

/-- Python `str.strip()` (ASCII whitespace model). -/
def pytrim (s : String) : String :=
  String.mk (((s.toList.dropWhile Char.isWhitespace).reverse.dropWhile
    Char.isWhitespace).reverse)

/-- Python `str.upper()` (ASCII model). -/
def pyupper (s : String) : String := String.mk (s.toList.map Char.toUpper)

/-- Python `str.replace(pat, "")` on char lists: scan left to right,
delete each non-overlapping occurrence and resume after it (the spliced
remainder is not rescanned).  A never-occurring empty pattern is a
no-op here (the source only ever passes a bound order identifier).
Structural recursion on a fuel argument (each step consumes at least
one character, so fuel = input length suffices). -/
def replaceAllChars (pat : List Char) : Nat → List Char → List Char
  | _, [] => []
  | 0, l => l
  | fuel + 1, c :: rest =>
    if pat ≠ [] ∧ pat.isPrefixOf (c :: rest) then
      replaceAllChars pat fuel (rest.drop (pat.length - 1))
    else
      c :: replaceAllChars pat fuel rest

/-- Python `msg.replace(pat, "")`. -/
def pyreplace (s pat : String) : String :=
  String.mk (replaceAllChars pat.toList s.toList.length s.toList)

/-- Does `pat` occur as a contiguous substring of `l`? -/
def containsSub (pat : List Char) : List Char → Bool
  | [] => pat.isEmpty
  | c :: rest => pat.isPrefixOf (c :: rest) || containsSub pat rest

/-- Backtracking step of `[\w\.-]+\.\w+`: find the largest split of the
maximal `[\w\.-]` run at a literal dot followed by at least one word
character, returning the part before the dot and the greedy word run
after it. -/
def splitLastDotAux : List Char → Option (List Char × List Char)
  | [] => none
  | c :: rest =>
    match splitLastDotAux rest with
    | some (b, w) => some (c :: b, w)
    | none =>
      if c = '.' ∧ (rest.takeWhile isWordChar) ≠ [] then
        some ([], rest.takeWhile isWordChar)
      else none

/-- Match of `[\w\.-]+@[\w\.-]+\.\w+` anchored at the head of the list,
with Python's greedy-with-backtracking semantics; returns the matched
characters. -/
def matchEmailAt (cs : List Char) : Option (List Char) :=
  let r1 := cs.takeWhile isEmailChar
  if r1 = [] then none
  else
    match cs.dropWhile isEmailChar with
    | '@' :: rest2 =>
      match splitLastDotAux (rest2.takeWhile isEmailChar) with
      | some (before, w) =>
        if before = [] then none
        else some (r1 ++ '@' :: before ++ '.' :: w)
      | none => none
    | _ => none

/-- `re.search` for the email pattern: leftmost position whose anchored
match succeeds. -/
def searchEmail : List Char → Option (List Char)
  | [] => none
  | c :: rest =>
    match matchEmailAt (c :: rest) with
    | some m => some m
    | none => searchEmail rest

/-- `re.search(r'[\w\.-]+@[\w\.-]+\.\w+', s)` returning `group(0)`. -/
def extractEmailTok (s : String) : Option String :=
  (searchEmail s.toList).map String.mk

/-- `RefundAgent._is_valid_email`: false on `None` and on the empty
string, otherwise whether the mailbox pattern occurs in the text. -/
def is_valid_email : Option String → Bool
  | none => false
  | some t => if t.isEmpty then false else (searchEmail t.toList).isSome

/-- Match of `\bXRD\d{4,6}\b` (IGNORECASE) anchored at the head, given
whether the preceding character was a word character (for the left
boundary); returns the raw matched characters. -/
def matchXRDAt (prevIsWord : Bool) : List Char → Option (List Char)
  | x :: r :: d :: rest =>
    if ¬prevIsWord ∧ x.toUpper = 'X' ∧ r.toUpper = 'R' ∧ d.toUpper = 'D' then
      let digits := rest.takeWhile Char.isDigit
      let afterOk := match rest.drop digits.length with
        | [] => true
        | c :: _ => !isWordChar c
      if 4 ≤ digits.length ∧ digits.length ≤ 6 ∧ afterOk = true then
        some (x :: r :: d :: digits)
      else none
    else none
  | _ => none

/-- `re.search` for the order-identifier pattern: leftmost match. -/
def searchXRD (prevIsWord : Bool) : List Char → Option (List Char)
  | [] => none
  | c :: rest =>
    match matchXRDAt prevIsWord (c :: rest) with
    | some m => some m
    | none => searchXRD (isWordChar c) rest

/-- `re.search(r'\bXRD\d{4,6}\b', s, re.IGNORECASE)` returning the raw
`group(0)` (uppercasing is applied at the call sites, as in the code). -/
def searchXRDTok (s : String) : Option String :=
  (searchXRD false s.toList).map String.mk

/-- Response strings of the source, verbatim. -/
def askEmailMsg : String := "Please provide a valid email address."

def helpMsg : String := "I can help with refunds or complaints. Do you have an Order ID?"

def askIdMsg : String := "Please provide your Order ID (e.g., XRD12345)."

def notFoundMsg (oid : String) : String :=
  "Order " ++ sqt ++ oid ++ sqt ++ " not found in database."

def askIssueMsg : String := "What is the issue with this order?"

def askImageMsg : String := "Please upload an image of the received items."

def analyzingMsg : String := "Analyzing..."

def approvedSendMsg : String := "Refund approved. Sending receipt..."

def approvedAskEmailMsg : String :=
  "✅ Refund Approved! Please provide your email address for the receipt."

def deniedMsg (v : Verdict) : String :=
  "❌ Refund Denied. Analysis: " ++ v.description.getD "Product acceptable" ++ "."

def stillEmailMsg : String := "I still need a valid email address."

def successMsg (e : Option String) : String :=
  "Success! Receipt sent to " ++ optStr e ++ "."

/-- The tail of `intent_reviewer_node` after the email-capture block:
flow-continuity check, then classification by the text collaborator
(`um` is the stripped message, `s0` the state with `current_node` and
the history delta already set). -/
def intentReviewerCont (tO : String → Analysis) (um : String)
    (s0 : AgentState) : AgentState :=
  if (s0.intent = "refund" ∨ s0.intent = "quality_complaint") ∧
      s0.refund_status = "" then
    { s0 with needs_input := false }
  else
    let a := tO um
    let s1 := { s0 with sentiment_score := a.sentiment_score,
                        intent := a.intent, language := a.language }
    if a.intent = "general" then
      { s1 with response_message := helpMsg,
                conversation_history := [⟨"assistant", helpMsg⟩],
                needs_input := false }
    else { s1 with needs_input := true }

/-- `RefundAgent.intent_reviewer_node`. -/
def intentReviewerNode (tO : String → Analysis) (s : AgentState) :
    AgentState :=
  let um := pytrim s.user_message
  let s0 := { s with current_node := "intent_reviewer",
                     conversation_history := [⟨"user", um⟩] }
  if s.refund_status = "approved" then
    match extractEmailTok um with
    | some m => { s0 with email := some m, intent := "finalize_flow" }
    | none =>
      if optTruthy s.email then intentReviewerCont tO um s0
      else
        { s0 with response_message := askEmailMsg,
                  conversation_history := [⟨"assistant", askEmailMsg⟩],
                  needs_input := true }
  else intentReviewerCont tO um s0

/-- `RefundAgent.route_after_intent`. -/
def routeAfterIntent (s : AgentState) : String :=
  if s.intent = "finalize_flow" then "finalize"
  else if s.intent = "general" then "general"
  else "continue"

/-- Steps 5 and 6 of `collector_node` (image gate, then the transition
to analysis). -/
def collectorImageCheck (s : AgentState) : AgentState :=
  if optTruthy s.image_path then
    { s with needs_input := false, response_message := analyzingMsg }
  else
    { s with response_message := askImageMsg,
             conversation_history := [⟨"assistant", askImageMsg⟩],
             needs_input := true }

/-- Re-prompt branch of `collector_node` when no order identifier is
bound after extraction. -/
def collectorAskId (s : AgentState) : AgentState :=
  { s with response_message := askIdMsg,
           conversation_history := [⟨"assistant", askIdMsg⟩],
           needs_input := true }

/-- `RefundAgent.collector_node`. -/
def collectorNode (db : List (String × OrderRec)) (s : AgentState) :
    AgentState :=
  let s0 := { s with current_node := "collector" }
  let um := s.user_message
  let s1 := match searchXRDTok um with
    | some tok => { s0 with order_id := some (pyupper tok) }
    | none => s0
  match s1.order_id with
  | none => collectorAskId s1
  | some oid =>
    if oid.isEmpty then collectorAskId s1
    else if (db.lookup oid).isSome then
      if optTruthy s1.complaint then collectorImageCheck s1
      else
        let clean := pytrim (pyreplace um oid)
        if clean.length > 10 then
          collectorImageCheck { s1 with complaint := some clean }
        else
          { s1 with response_message := askIssueMsg,
                    conversation_history := [⟨"assistant", askIssueMsg⟩],
                    needs_input := true }
    else
      { s1 with response_message := notFoundMsg oid,
                conversation_history := [⟨"assistant", notFoundMsg oid⟩],
                order_id := none, needs_input := true }

/-- `RefundAgent.route_after_collector`. -/
def routeAfterCollector (s : AgentState) : String :=
  if s.needs_input then "need_input" else "ready"

/-- `RefundAgent.image_analyzer_node`; `none` models the KeyError
raised when the bound identifier (or `None`) is not a catalog key. -/
def imageAnalyzerNode (vO : Option String → String → Verdict)
    (db : List (String × OrderRec)) (s : AgentState) : Option AgentState :=
  if verdictTruthy s.image_verdict then some s
  else
    match s.order_id with
    | none => none
    | some oid =>
      match db.lookup oid with
      | none => none
      | some order =>
        let itemList := String.intercalate ", "
          (order.items.map (fun i => toString i.quantity ++ "x " ++ i.name))
        let ctx := "Order ID: " ++ oid ++ "\nExpected Items: " ++ itemList ++
          "\nUser Complaint: " ++ sqt ++ optStr s.complaint ++ sqt
        some { s with current_node := "image_analyzer",
                      image_verdict := some (vO s.image_path ctx) }

/-- `RefundAgent.decision_node`; `none` models the crash of
`verdict.get` when `image_verdict` is `None`. -/
def decisionNode (s : AgentState) : Option AgentState :=
  match s.image_verdict with
  | none => none
  | some v =>
    let s0 := { s with current_node := "decision" }
    if v.status = some "defective" then
      if optTruthy s0.email && is_valid_email s0.email then
        some { s0 with refund_status := "approved",
                       response_message := approvedSendMsg,
                       needs_input := false }
      else
        some { s0 with refund_status := "approved",
                       response_message := approvedAskEmailMsg,
                       conversation_history :=
                         [⟨"assistant", approvedAskEmailMsg⟩],
                       needs_input := true }
    else
      some { s0 with refund_status := "denied",
                     response_message := deniedMsg v,
                     conversation_history := [⟨"assistant", deniedMsg v⟩],
                     needs_input := false }

/-- `RefundAgent.route_after_decision`. -/
def routeAfterDecision (s : AgentState) : String :=
  if s.refund_status = "approved" ∧ optTruthy s.email = false then "ask_email"
  else "finalize"

/-- Common tail of `finalizer_node`: append one ledger entry and clear
`needs_input`. -/
def finalizerAppend (s : AgentState) (ledger : List LedgerEntry) :
    AgentState × List LedgerEntry :=
  ({ s with needs_input := false },
   ledger ++ [⟨s.session_id, s.order_id, s.refund_status, s.email⟩])

/-- `RefundAgent.finalizer_node`.  Receipt rendering and the email
dispatch are the external notification collaborator (spec §1, §6);
their only state effect is the success message. -/
def finalizerNode (s : AgentState) (ledger : List LedgerEntry) :
    AgentState × List LedgerEntry :=
  if s.refund_status = "approved" then
    if is_valid_email s.email then
      finalizerAppend
        { s with response_message := successMsg s.email,
                 conversation_history := [⟨"assistant", successMsg s.email⟩] }
        ledger
    else
      ({ s with response_message := stillEmailMsg,
                conversation_history := [⟨"assistant", stillEmailMsg⟩],
                needs_input := true }, ledger)
  else finalizerAppend s ledger

/-- Engine-side application of one node result: every key returned by
the node replaces its channel except `conversation_history`, whose
returned value is appended (`operator.add` reducer). -/
def stepHist (s r : AgentState) : AgentState :=
  { r with conversation_history :=
      s.conversation_history ++ r.conversation_history }

/-- Finalizer application inside a walk (state channels plus ledger). -/
def finalizerStep (s : AgentState) (ledger : List LedgerEntry) :
    AgentState × List LedgerEntry :=
  (stepHist s (finalizerNode s ledger).1, (finalizerNode s ledger).2)

/-- One walk of the compiled graph (`RefundAgent._build_graph`):
intent_reviewer, then conditional routing through collector,
image_analyzer, decision and finalizer; `none` models an uncaught
exception inside a node. -/
def runWalk (tO : String → Analysis) (vO : Option String → String → Verdict)
    (db : List (String × OrderRec)) (s : AgentState)
    (ledger : List LedgerEntry) : Option (AgentState × List LedgerEntry) :=
  let s1 := stepHist s (intentReviewerNode tO s)
  if routeAfterIntent s1 = "finalize" then some (finalizerStep s1 ledger)
  else if routeAfterIntent s1 = "general" then some (s1, ledger)
  else
    let s2 := stepHist s1 (collectorNode db s1)
    if routeAfterCollector s2 = "need_input" then some (s2, ledger)
    else
      match imageAnalyzerNode vO db s2 with
      | none => none
      | some r3 =>
        let s3 := stepHist s2 r3
        match decisionNode s3 with
        | none => none
        | some r4 =>
          let s4 := stepHist s3 r4
          if routeAfterDecision s4 = "ask_email" then some (s4, ledger)
          else some (finalizerStep s4 ledger)

/-- The `/chat` endpoint's merge of one inbound unit into the stored
session state (`src/Try/main.py`): strip and store the message, rebind
the order identifier on any XRD mention, bind a non-empty email form
field, bind an uploaded image reference. -/
def mergeInbound (s : AgentState) (inp : Inbound) : AgentState :=
  let s1 := match inp.message with
    | some m =>
      if m.isEmpty then s
      else
        let sA := { s with user_message := pytrim m }
        match searchXRDTok m with
        | some tok => { sA with order_id := some (pyupper tok) }
        | none => sA
    | none => s
  let s2 := match inp.email with
    | some e => if e.isEmpty then s1 else { s1 with email := some (pytrim e) }
    | none => s1
  match inp.image with
  | some p => { s2 with image_path := some p }
  | none => s2

/-- One HTTP turn: merge the inbound unit, run one walk, store the
result; an exception inside the walk is caught by the endpoint and the
session keeps its last persisted state (and the ledger is untouched,
since every crash point precedes the finalizer). -/
def runTurn (tO : String → Analysis) (vO : Option String → String → Verdict)
    (db : List (String × OrderRec)) (s : AgentState) (inp : Inbound)
    (ledger : List LedgerEntry) : AgentState × List LedgerEntry :=
  match runWalk tO vO db (mergeInbound s inp) ledger with
  | some r => r
  | none => (s, ledger)

@[simp] theorem stepHist_refund_status (s r : AgentState) :
    (stepHist s r).refund_status = r.refund_status := rfl

@[simp] theorem stepHist_image_verdict (s r : AgentState) :
    (stepHist s r).image_verdict = r.image_verdict := rfl

@[simp] theorem stepHist_intent (s r : AgentState) :
    (stepHist s r).intent = r.intent := rfl

@[simp] theorem stepHist_email (s r : AgentState) :
    (stepHist s r).email = r.email := rfl

@[simp] theorem stepHist_needs_input (s r : AgentState) :
    (stepHist s r).needs_input = r.needs_input := rfl

@[simp] theorem stepHist_history (s r : AgentState) :
    (stepHist s r).conversation_history =
      s.conversation_history ++ r.conversation_history := rfl

theorem intentNode_refund_status (tO : String → Analysis) (s : AgentState) :
    (intentReviewerNode tO s).refund_status = s.refund_status := by
  unfold intentReviewerNode intentReviewerCont
  dsimp only
  repeat' split
  all_goals rfl

theorem intentNode_image_verdict (tO : String → Analysis) (s : AgentState) :
    (intentReviewerNode tO s).image_verdict = s.image_verdict := by
  unfold intentReviewerNode intentReviewerCont
  dsimp only
  repeat' split
  all_goals rfl

theorem collectorNode_refund_status (db : List (String × OrderRec))
    (s : AgentState) : (collectorNode db s).refund_status = s.refund_status := by
  unfold collectorNode collectorImageCheck collectorAskId
  dsimp only
  repeat' split
  all_goals rfl

theorem collectorNode_image_verdict (db : List (String × OrderRec))
    (s : AgentState) : (collectorNode db s).image_verdict = s.image_verdict := by
  unfold collectorNode collectorImageCheck collectorAskId
  dsimp only
  repeat' split
  all_goals rfl

theorem finalizerNode_refund_status (s : AgentState) (L : List LedgerEntry) :
    (finalizerNode s L).1.refund_status = s.refund_status := by
  unfold finalizerNode finalizerAppend
  repeat' split
  all_goals rfl

/-- Memoization helper: a truthy verdict makes `image_analyzer_node`
the identity. -/
theorem imageAnalyzer_memo (vO : Option String → String → Verdict)
    (db : List (String × OrderRec)) (s : AgentState)
    (h : verdictTruthy s.image_verdict = true) :
    imageAnalyzerNode vO db s = some s := by
  unfold imageAnalyzerNode
  simp [h]

/-- Decision helper: the refund status written by `decision_node` is a
function of the verdict's status field alone. -/
theorem decisionNode_status (s : AgentState) (v : Verdict)
    (h : s.image_verdict = some v) :
    (decisionNode s).map (fun r => r.refund_status) =
      some (if v.status = some "defective" then "approved" else "denied") := by
  unfold decisionNode
  rw [h]
  dsimp only
  repeat' split
  all_goals simp_all

/-- A one-entry order catalog used by concrete instances. -/
def dbOne : List (String × OrderRec) := [("XRD12345", ⟨[⟨"Pizza", 1⟩]⟩)]

/-- A fresh session state as produced by `initialize_session` in
`src/Try/main.py`. -/
def freshState : AgentState :=
  { session_id := "s1", user_message := "", sentiment_score := 5,
    intent := "", language := "en", order_id := none, complaint := none,
    image_path := none, image_verdict := none, refund_status := "",
    email := none, current_node := "", response_message := "",
    needs_input := true, conversation_history := [] }

/-- A mid-session state: approved claim awaiting the customer's email,
with a defective verdict memoized and all prerequisites bound. -/
def awaitEmailState : AgentState :=
  { freshState with user_message := "hello there", intent := "refund",
                    order_id := some "XRD12345",
                    complaint := some "the box was completely crushed",
                    image_path := some "uploads/x.jpg",
                    image_verdict := some ⟨some "defective", some "crushed box"⟩,
                    refund_status := "approved",
                    current_node := "decision" }

/-- Claim C1: the Decision stage sets `refund_status` to `approved`
exactly when the image verdict's status field is the string
`"defective"`; every other value of the status field (absent or any
other string) yields `refund_status = denied`. -/
theorem c1_decision_strict (s : AgentState) (v : Verdict)
    (h : s.image_verdict = some v) :
    ((decisionNode s).map (fun r => r.refund_status) = some "approved" ↔
      v.status = some "defective") ∧
    (v.status ≠ some "defective" →
      (decisionNode s).map (fun r => r.refund_status) = some "denied") := by
  have hd := decisionNode_status s v h
  constructor
  · rw [hd]
    by_cases hs : v.status = some "defective" <;> simp [hs]
  · intro hs
    rw [hd]
    simp [hs]

/-- Claim C1, witness: a concrete state with a defective verdict. -/
theorem c1_decision_strict_witness :
    awaitEmailState.image_verdict =
      some ⟨some "defective", some "crushed box"⟩ ∧
    (((decisionNode awaitEmailState).map (fun r => r.refund_status) =
        some "approved" ↔
      (Verdict.mk (some "defective") (some "crushed box")).status =
        some "defective") ∧
    ((Verdict.mk (some "defective") (some "crushed box")).status ≠
        some "defective" →
      (decisionNode awaitEmailState).map (fun r => r.refund_status) =
        some "denied")) :=
  ⟨rfl, c1_decision_strict awaitEmailState ⟨some "defective", some "crushed box"⟩ rfl⟩

/-- Claim C5: when `image_verdict` is already populated, the Image
Analysis stage returns the state unchanged, and the result does not
depend on the vision collaborator (which is therefore not invoked):
`verdictTruthy` is exactly the source's `state.get("image_verdict")`
truthiness gate. -/
theorem c5_image_analysis_memoized (vO : Option String → String → Verdict)
    (db : List (String × OrderRec)) (s : AgentState)
    (h : verdictTruthy s.image_verdict = true) :
    imageAnalyzerNode vO db s = some s :=
  imageAnalyzer_memo vO db s h

/-- Claim C5, witness: concrete re-entry with a populated verdict under
an arbitrary concrete collaborator. -/
theorem c5_image_analysis_memoized_witness :
    verdictTruthy awaitEmailState.image_verdict = true ∧
    imageAnalyzerNode (fun _ _ => ⟨some "acceptable", some "x"⟩) dbOne
      awaitEmailState = some awaitEmailState :=
  ⟨rfl, c5_image_analysis_memoized (fun _ _ => ⟨some "acceptable", some "x"⟩)
    dbOne awaitEmailState rfl⟩

/-- Claim C6: when `refund_status = approved` and the bound email fails
the mailbox pattern, the Finalizer emits the email re-prompt, sets
`needs_input`, and leaves the ledger unchanged; every other execution
appends exactly the entry `{session_id, order_id, status, email}` and
clears `needs_input`. -/
theorem c6_finalizer_ledger (s : AgentState) (L : List LedgerEntry) :
    (s.refund_status = "approved" → is_valid_email s.email = false →
      finalizerNode s L =
        ({ s with response_message := stillEmailMsg,
                  conversation_history := [⟨"assistant", stillEmailMsg⟩],
                  needs_input := true }, L)) ∧
    (¬(s.refund_status = "approved" ∧ is_valid_email s.email = false) →
      (finalizerNode s L).2 =
        L ++ [⟨s.session_id, s.order_id, s.refund_status, s.email⟩] ∧
      (finalizerNode s L).1.needs_input = false) := by
  unfold finalizerNode finalizerAppend
  constructor
  · intro ha he
    simp [ha, he]
  · intro hn
    by_cases ha : s.refund_status = "approved"
    · have hv : is_valid_email s.email = true := by
        rcases Bool.eq_false_or_eq_true (is_valid_email s.email) with h | h
        · exact h
        · exact absurd ⟨ha, h⟩ hn
      simp [ha, hv]
    · simp [ha]

/-- Claim C6, witness: the invalid-email path at a concrete approved
state, and the append path at a concrete denied state. -/
theorem c6_finalizer_ledger_witness :
    (awaitEmailState.refund_status = "approved" ∧
      is_valid_email awaitEmailState.email = false ∧
      finalizerNode awaitEmailState [] =
        ({ awaitEmailState with
             response_message := stillEmailMsg,
             conversation_history := [⟨"assistant", stillEmailMsg⟩],
             needs_input := true }, [])) ∧
    (¬({ awaitEmailState with refund_status := "denied" }.refund_status =
          "approved" ∧
        is_valid_email { awaitEmailState with refund_status := "denied" }.email =
          false) ∧
      (finalizerNode { awaitEmailState with refund_status := "denied" } []).2 =
        [] ++ [⟨"s1", some "XRD12345", "denied", none⟩]) :=
  ⟨⟨rfl, rfl, (c6_finalizer_ledger awaitEmailState []).1 rfl rfl⟩,
   ⟨by simp, by
      have := ((c6_finalizer_ledger
        { awaitEmailState with refund_status := "denied" } []).2 (by simp)).1
      simpa using this⟩⟩

/-- A text classifier that answers `general` (also the retained fallback
of `SentimentIntentAnalyzer.analyze`). -/
def oracleGen : String → Analysis := fun _ => ⟨"general", 6, "en"⟩

/-- A text classifier that answers `refund`. -/
def oracleRefund : String → Analysis := fun _ => ⟨"refund", 5, "en"⟩

/-- A vision collaborator that always reports a defect. -/
def visionDef : Option String → String → Verdict :=
  fun _ _ => ⟨some "defective", some "crushed box"⟩

/-- A fresh session carrying the message `"hello"`. -/
def genState : AgentState := { freshState with user_message := "hello" }

/-- Claim C10: whenever Intent Review re-classifies the message (its
email-capture branch does not return early and the flow-continuity
check does not fire) and the classifier answers intent `general`, the
walk halts at Intent Review with the generic help prompt and the
returned state has `needs_input = false` (the pause is visible only in
the routing); the full result state is pinned, so no later stage ran. -/
theorem c10_general_halts (tO : String → Analysis)
    (vO : Option String → String → Verdict) (db : List (String × OrderRec))
    (s : AgentState) (L : List LedgerEntry)
    (h1 : s.refund_status = "approved" →
      extractEmailTok (pytrim s.user_message) = none ∧
      optTruthy s.email = true)
    (h2 : ¬((s.intent = "refund" ∨ s.intent = "quality_complaint") ∧
      s.refund_status = ""))
    (h4 : (tO (pytrim s.user_message)).intent = "general") :
    runWalk tO vO db s L = some
      ({ s with current_node := "intent_reviewer",
                sentiment_score := (tO (pytrim s.user_message)).sentiment_score,
                intent := "general",
                language := (tO (pytrim s.user_message)).language,
                response_message := helpMsg,
                needs_input := false,
                conversation_history :=
                  s.conversation_history ++ [⟨"assistant", helpMsg⟩] }, L) := by
  have hn : intentReviewerNode tO s =
      { s with current_node := "intent_reviewer",
               sentiment_score := (tO (pytrim s.user_message)).sentiment_score,
               intent := "general",
               language := (tO (pytrim s.user_message)).language,
               response_message := helpMsg,
               needs_input := false,
               conversation_history := [⟨"assistant", helpMsg⟩] } := by
    unfold intentReviewerNode intentReviewerCont
    by_cases hap : s.refund_status = "approved"
    · obtain ⟨hm, he⟩ := h1 hap
      rw [if_pos hap, hm, if_pos he]
      rw [if_neg h2]
      rw [if_pos h4, h4]
    · rw [if_neg hap]
      rw [if_neg h2]
      rw [if_pos h4, h4]
  simp only [runWalk]
  rw [hn]
  simp [stepHist, routeAfterIntent]

/-- Claim C10, witness: a concrete fresh session classified `general`. -/
theorem c10_general_halts_witness :
    (genState.refund_status = "approved" →
      extractEmailTok (pytrim genState.user_message) = none ∧
      optTruthy genState.email = true) ∧
    ¬((genState.intent = "refund" ∨ genState.intent = "quality_complaint") ∧
      genState.refund_status = "") ∧
    (oracleGen (pytrim genState.user_message)).intent = "general" ∧
    runWalk oracleGen visionDef dbOne genState [] = some
      ({ genState with current_node := "intent_reviewer",
                       sentiment_score :=
                         (oracleGen (pytrim genState.user_message)).sentiment_score,
                       intent := "general",
                       language := (oracleGen (pytrim genState.user_message)).language,
                       response_message := helpMsg,
                       needs_input := false,
                       conversation_history :=
                         genState.conversation_history ++
                           [⟨"assistant", helpMsg⟩] }, []) :=
  ⟨by decide, by decide, rfl,
   c10_general_halts oracleGen visionDef dbOne genState [] (by decide)
     (by decide) rfl⟩

/-- Claim C3 (amended): with an approved claim, no email-shaped token in
the stripped message, and no email bound, the Intent Review stage emits
the email re-prompt and sets `needs_input = true`; but the walk does not
halt there — `route_after_intent` inspects only `intent`, so with the
session's intent still `refund` or `quality_complaint` the walk
continues to the Collector (and possibly to later stages, which may
overwrite the response). -/
theorem c3_email_reprompt (tO : String → Analysis) (s : AgentState)
    (ha : s.refund_status = "approved")
    (hm : extractEmailTok (pytrim s.user_message) = none)
    (he : optTruthy s.email = false) :
    intentReviewerNode tO s =
      { s with current_node := "intent_reviewer",
               response_message := askEmailMsg,
               conversation_history := [⟨"assistant", askEmailMsg⟩],
               needs_input := true } ∧
    (s.intent = "refund" ∨ s.intent = "quality_complaint" →
      routeAfterIntent (stepHist s (intentReviewerNode tO s)) = "continue") := by
  have hn : intentReviewerNode tO s =
      { s with current_node := "intent_reviewer",
               response_message := askEmailMsg,
               conversation_history := [⟨"assistant", askEmailMsg⟩],
               needs_input := true } := by
    unfold intentReviewerNode
    rw [if_pos ha, hm]
    simp [he]
  refine ⟨hn, fun hi => ?_⟩
  rw [hn]
  unfold routeAfterIntent
  rcases hi with hi | hi <;> simp [stepHist, hi]

/-- Claim C3, counterexample: a concrete approved session awaiting an
email, message `"hello there"` (no email token, none bound); the walk
does not halt at Intent Review: it runs Collector, Image Analysis and
Decision, ends with `current_node = "decision"`, and the surfaced
response is Decision's approval prompt, not Intent Review's re-prompt. -/
theorem c3_email_reprompt_cex :
    awaitEmailState.refund_status = "approved" ∧
    extractEmailTok (pytrim awaitEmailState.user_message) = none ∧
    awaitEmailState.email = none ∧
    (runWalk oracleRefund visionDef dbOne awaitEmailState []).map
        (fun p => (p.1.current_node, p.1.response_message, p.1.needs_input)) =
      some ("decision", approvedAskEmailMsg, true) ∧
    approvedAskEmailMsg ≠ askEmailMsg := by decide

/-- Claim C3, witness: the amended statement at the same concrete
approved session. -/
theorem c3_email_reprompt_witness :
    awaitEmailState.refund_status = "approved" ∧
    extractEmailTok (pytrim awaitEmailState.user_message) = none ∧
    optTruthy awaitEmailState.email = false ∧
    (intentReviewerNode oracleRefund awaitEmailState =
      { awaitEmailState with
          current_node := "intent_reviewer",
          response_message := askEmailMsg,
          conversation_history := [⟨"assistant", askEmailMsg⟩],
          needs_input := true } ∧
    (awaitEmailState.intent = "refund" ∨
        awaitEmailState.intent = "quality_complaint" →
      routeAfterIntent
        (stepHist awaitEmailState (intentReviewerNode oracleRefund awaitEmailState)) =
          "continue")) :=
  ⟨rfl, by decide, rfl,
   c3_email_reprompt oracleRefund awaitEmailState rfl (by decide) rfl⟩

/-- The order identifier the Collector works with after its extraction
step: the uppercased XRD token of the inbound message when one is
present, otherwise the previously bound identifier. -/
def collectorBoundId (s : AgentState) : Option String :=
  match searchXRDTok s.user_message with
  | some tok => some (pyupper tok)
  | none => s.order_id

/-- Claim C4 (amended): when the identifier bound after the Collector's
extraction step is absent from the Order Catalog, the Collector emits
the not-found re-prompt, clears `order_id`, sets `needs_input = true`,
and the walk pauses; the full result state is pinned, so no complaint is
bound and `complaint`, `image_path`, `image_verdict` and
`refund_status` are unchanged. -/
theorem c4_not_found (db : List (String × OrderRec)) (s : AgentState)
    (oid : String) (h1 : collectorBoundId s = some oid)
    (h2 : oid.isEmpty = false) (h3 : db.lookup oid = none) :
    collectorNode db s =
      { s with current_node := "collector", order_id := none,
               response_message := notFoundMsg oid,
               conversation_history := [⟨"assistant", notFoundMsg oid⟩],
               needs_input := true } ∧
    routeAfterCollector (stepHist s (collectorNode db s)) = "need_input" := by
  have hn : collectorNode db s =
      { s with current_node := "collector", order_id := none,
               response_message := notFoundMsg oid,
               conversation_history := [⟨"assistant", notFoundMsg oid⟩],
               needs_input := true } := by
    unfold collectorNode
    unfold collectorBoundId at h1
    cases hx : searchXRDTok s.user_message with
    | some tok =>
      rw [hx] at h1
      have ht : pyupper tok = oid := by simpa using h1
      subst ht
      simp only [hx]
      simp [h2, h3]
    | none =>
      rw [hx] at h1
      simp only [] at h1
      simp only [hx]
      simp [h1, h2, h3]
  exact ⟨hn, by rw [hn]; simp [routeAfterCollector, stepHist]⟩

/-- A state with a bound identifier absent from the catalog whose new
message mentions a different, catalog-valid identifier. -/
def invalidIdState : AgentState :=
  { freshState with order_id := some "XRD99999", intent := "refund",
                    user_message :=
                      "XRD12345 my pizza arrived totally burnt yesterday" }

/-- Claim C4, counterexample: the state's bound identifier `XRD99999`
is absent from the catalog, yet the Collector rebinds the message's
valid `XRD12345`, binds a complaint, and asks for an image instead of
emitting the not-found re-prompt and clearing `order_id`. -/
theorem c4_not_found_cex :
    invalidIdState.order_id = some "XRD99999" ∧
    dbOne.lookup "XRD99999" = none ∧
    (collectorNode dbOne invalidIdState).order_id = some "XRD12345" ∧
    (collectorNode dbOne invalidIdState).complaint =
      some "my pizza arrived totally burnt yesterday" ∧
    (collectorNode dbOne invalidIdState).response_message = askImageMsg ∧
    askImageMsg ≠ notFoundMsg "XRD99999" := by decide

/-- A state whose bound identifier is absent from the catalog and whose
message mentions no identifier. -/
def notFoundState : AgentState :=
  { freshState with order_id := some "XRD99999", intent := "refund",
                    user_message := "it was burnt",
                    complaint := some "earlier complaint" }

/-- Claim C4, witness: the amended statement at a concrete state. -/
theorem c4_not_found_witness :
    collectorBoundId notFoundState = some "XRD99999" ∧
    "XRD99999".isEmpty = false ∧
    dbOne.lookup "XRD99999" = none ∧
    (collectorNode dbOne notFoundState =
      { notFoundState with
          current_node := "collector", order_id := none,
          response_message := notFoundMsg "XRD99999",
          conversation_history := [⟨"assistant", notFoundMsg "XRD99999"⟩],
          needs_input := true } ∧
    routeAfterCollector
      (stepHist notFoundState (collectorNode dbOne notFoundState)) =
        "need_input") :=
  ⟨by decide, rfl, rfl,
   c4_not_found dbOne notFoundState "XRD99999" (by decide) rfl rfl⟩

/-- Claim C9 (amended): with a catalog-valid identifier bound after the
extraction step and no complaint yet, the Collector strips every
occurrence of the identifier from the message: when the trimmed
remainder exceeds 10 characters it is bound as the complaint, otherwise
the Collector re-prompts and pauses.  (Occurrence deletion can splice
the identifier back together, so the bound complaint may still contain
the identifier substring — the original final guarantee fails.) -/
theorem c9_complaint_binding (db : List (String × OrderRec)) (s : AgentState)
    (oid : String) (h1 : collectorBoundId s = some oid)
    (h2 : oid.isEmpty = false) (h3 : (db.lookup oid).isSome = true)
    (h4 : optTruthy s.complaint = false) :
    ((pytrim (pyreplace s.user_message oid)).length > 10 →
      (collectorNode db s).complaint =
        some (pytrim (pyreplace s.user_message oid))) ∧
    (¬(pytrim (pyreplace s.user_message oid)).length > 10 →
      (collectorNode db s).complaint = s.complaint ∧
      (collectorNode db s).response_message = askIssueMsg ∧
      (collectorNode db s).needs_input = true) := by
  have hmain : collectorNode db s =
      (if (pytrim (pyreplace s.user_message oid)).length > 10 then
        collectorImageCheck
          { s with current_node := "collector",
                   order_id := some oid,
                   complaint := some (pytrim (pyreplace s.user_message oid)) }
      else
        { s with current_node := "collector",
                 order_id := some oid,
                 response_message := askIssueMsg,
                 conversation_history := [⟨"assistant", askIssueMsg⟩],
                 needs_input := true }) := by
    unfold collectorNode
    unfold collectorBoundId at h1
    cases hx : searchXRDTok s.user_message with
    | some tok =>
      rw [hx] at h1
      have ht : pyupper tok = oid := by simpa using h1
      subst ht
      simp only [hx]
      simp [h2, h3, h4]
    | none =>
      rw [hx] at h1
      simp only [] at h1
      simp only [hx]
      simp [h1, h2, h3, h4]
  constructor
  · intro hlen
    rw [hmain, if_pos hlen]
    unfold collectorImageCheck
    split <;> rfl
  · intro hlen
    rw [hmain, if_neg hlen]
    exact ⟨rfl, rfl, rfl⟩

/-- A state where occurrence deletion splices the identifier back
together: the message contains `XRD12345` only as an interior substring
(no word-boundary regex match), and deleting it rebuilds `XRD12345`
at the front of the remainder. -/
def spliceState : AgentState :=
  { freshState with order_id := some "XRD12345", intent := "quality_complaint",
                    user_message := "XRXRD12345D12345 completely burnt pizza" }

/-- Claim C9, counterexample: the bound complaint contains the order
identifier substring. -/
theorem c9_complaint_binding_cex :
    spliceState.order_id = some "XRD12345" ∧
    (dbOne.lookup "XRD12345").isSome = true ∧
    (collectorNode dbOne spliceState).complaint =
      some "XRD12345 completely burnt pizza" ∧
    containsSub "XRD12345".toList
      "XRD12345 completely burnt pizza".toList = true := by decide

/-- Claim C9, witness: the amended statement at a concrete state
(long remainder, complaint bound). -/
theorem c9_complaint_binding_witness :
    collectorBoundId invalidIdState = some "XRD12345" ∧
    "XRD12345".isEmpty = false ∧
    (dbOne.lookup "XRD12345").isSome = true ∧
    optTruthy invalidIdState.complaint = false ∧
    (((pytrim (pyreplace invalidIdState.user_message "XRD12345")).length > 10 →
      (collectorNode dbOne invalidIdState).complaint =
        some (pytrim (pyreplace invalidIdState.user_message "XRD12345"))) ∧
    (¬(pytrim (pyreplace invalidIdState.user_message "XRD12345")).length > 10 →
      (collectorNode dbOne invalidIdState).complaint =
        invalidIdState.complaint ∧
      (collectorNode dbOne invalidIdState).response_message = askIssueMsg ∧
      (collectorNode dbOne invalidIdState).needs_input = true)) :=
  ⟨by decide, rfl, rfl, rfl,
   c9_complaint_binding dbOne invalidIdState "XRD12345" (by decide) rfl rfl rfl⟩

theorem mergeInbound_history (s : AgentState) (inp : Inbound) :
    (mergeInbound s inp).conversation_history = s.conversation_history := by
  unfold mergeInbound
  repeat' split
  all_goals rfl

theorem mergeInbound_refund_status (s : AgentState) (inp : Inbound) :
    (mergeInbound s inp).refund_status = s.refund_status := by
  unfold mergeInbound
  repeat' split
  all_goals rfl

theorem mergeInbound_image_verdict (s : AgentState) (inp : Inbound) :
    (mergeInbound s inp).image_verdict = s.image_verdict := by
  unfold mergeInbound
  repeat' split
  all_goals rfl

/-- Every state a walk can return extends the inbound history: all
`some` branches of `runWalk` are `stepHist` chains rooted at the input
state, and `stepHist` only ever appends. -/
theorem runWalk_history (tO : String → Analysis)
    (vO : Option String → String → Verdict) (db : List (String × OrderRec))
    (s : AgentState) (L : List LedgerEntry)
    (r : AgentState × List LedgerEntry) (h : runWalk tO vO db s L = some r) :
    ∃ t, r.1.conversation_history = s.conversation_history ++ t := by
  simp only [runWalk] at h
  repeat' split at h
  all_goals first
    | exact Option.noConfusion h
    | (cases h
       simp only [finalizerStep, stepHist_history, List.append_assoc]
       exact ⟨_, rfl⟩)

/-- Claim C7: across any turn, the persisted `conversation_history`
only grows: the post-turn history extends the pre-turn history (so its
length is monotonically non-decreasing and no entry is replaced or
removed). -/
theorem c7_history_monotone (tO : String → Analysis)
    (vO : Option String → String → Verdict) (db : List (String × OrderRec))
    (s : AgentState) (inp : Inbound) (L : List LedgerEntry) :
    (∃ t, (runTurn tO vO db s inp L).1.conversation_history =
      s.conversation_history ++ t) ∧
    s.conversation_history.length ≤
      (runTurn tO vO db s inp L).1.conversation_history.length := by
  have hext : ∃ t, (runTurn tO vO db s inp L).1.conversation_history =
      s.conversation_history ++ t := by
    unfold runTurn
    cases hw : runWalk tO vO db (mergeInbound s inp) L with
    | none => exact ⟨[], by simp⟩
    | some r =>
      obtain ⟨t, ht⟩ := runWalk_history tO vO db (mergeInbound s inp) L r hw
      exact ⟨t, by rw [ht, mergeInbound_history]⟩
  refine ⟨hext, ?_⟩
  obtain ⟨t, ht⟩ := hext
  rw [ht]
  simp

/-- Claim C8 (code-bug evidence): a fresh session sends `"hello"` and
the classifier answers `general`; Intent Review's second assignment to
the history key overwrites the per-turn delta, so the persisted history
after the walk holds only the assistant's help prompt — the inbound
user message is not appended, although line 90 of `agent.py` appends it
and the state annotation promises append-only accumulation. -/
theorem c8_user_entry_dropped :
    (runTurn oracleGen visionDef dbOne freshState
        ⟨some "hello", none, none⟩ []).1.conversation_history =
      [⟨"assistant", helpMsg⟩] := by decide

/-- Decision-consistency invariant of a session state: a terminal
`refund_status` agrees with the memoized verdict that produced it
(approved states carry a defective verdict; denied states carry a
truthy, non-defective verdict).  Every state the engine can actually
produce satisfies it, since Decision is the only writer of
`refund_status` and nothing ever rewrites a truthy `image_verdict`. -/
def okInv (s : AgentState) : Prop :=
  (s.refund_status = "approved" →
    ∃ v, s.image_verdict = some v ∧ v.status = some "defective") ∧
  (s.refund_status = "denied" →
    ∃ v, s.image_verdict = some v ∧ verdictTruthy (some v) = true ∧
      v.status ≠ some "defective")

/-- Walk-level preservation: when the state carries a truthy memoized
verdict whose decision outcome equals the current `refund_status`, any
completed walk returns the same `refund_status` (Image Analysis is a
no-op and Decision recomputes the same value; no other stage writes the
field). -/
theorem runWalk_refund (tO : String → Analysis)
    (vO : Option String → String → Verdict) (db : List (String × OrderRec))
    (s : AgentState) (L : List LedgerEntry) (v : Verdict)
    (hv1 : s.image_verdict = some v) (hv2 : verdictTruthy (some v) = true)
    (hv3 : (if v.status = some "defective" then "approved" else "denied") =
      s.refund_status)
    (r : AgentState × List LedgerEntry) (h : runWalk tO vO db s L = some r) :
    r.1.refund_status = s.refund_status := by
  simp only [runWalk] at h
  set s1 := stepHist s (intentReviewerNode tO s) with hs1
  set s2 := stepHist s1 (collectorNode db s1) with hs2
  have e1r : s1.refund_status = s.refund_status := by
    rw [hs1]; simp [intentNode_refund_status]
  have e2r : s2.refund_status = s.refund_status := by
    rw [hs2]; simp [collectorNode_refund_status, e1r]
  have e2v : s2.image_verdict = s.image_verdict := by
    rw [hs2, hs1]
    simp [collectorNode_image_verdict, intentNode_image_verdict]
  have himg : imageAnalyzerNode vO db s2 = some s2 :=
    imageAnalyzer_memo vO db s2 (by rw [e2v, hv1]; exact hv2)
  split at h
  · cases h
    simp [finalizerStep, finalizerNode_refund_status, e1r]
  · split at h
    · cases h
      simpa using e1r
    · split at h
      · cases h
        simpa using e2r
      · rw [himg] at h
        dsimp only at h
        set s3 := stepHist s2 s2 with hs3
        have e3r : s3.refund_status = s.refund_status := by
          rw [hs3]; simp [e2r]
        have e3v : s3.image_verdict = s.image_verdict := by
          rw [hs3]; simp [e2v]
        cases hdec : decisionNode s3 with
        | none =>
          rw [hdec] at h
          exact Option.noConfusion h
        | some r4 =>
          rw [hdec] at h
          dsimp only at h
          have hr4 : r4.refund_status = s.refund_status := by
            have hst := decisionNode_status s3 v (by rw [e3v]; exact hv1)
            rw [hdec] at hst
            simp only [Option.map_some'] at hst
            have := Option.some.inj hst
            rw [this, hv3]
          split at h
          · cases h
            simpa using hr4
          · cases h
            simp [finalizerStep, finalizerNode_refund_status, hr4]

/-- Claim C2 (amended): for every session state satisfying the
decision-consistency invariant `okInv` — which all reachable states do —
a terminal `refund_status` (`approved` or `denied`) is never changed by
any subsequent turn, for any inbound message, image or email and any
collaborator behaviour. -/
theorem c2_refund_status_stable (tO : String → Analysis)
    (vO : Option String → String → Verdict) (db : List (String × OrderRec))
    (s : AgentState) (inp : Inbound) (L : List LedgerEntry)
    (hterm : s.refund_status = "approved" ∨ s.refund_status = "denied")
    (hok : okInv s) :
    (runTurn tO vO db s inp L).1.refund_status = s.refund_status := by
  obtain ⟨v, hv1, hv2, hv3⟩ : ∃ v, s.image_verdict = some v ∧
      verdictTruthy (some v) = true ∧
      (if v.status = some "defective" then "approved" else "denied") =
        s.refund_status := by
    rcases hterm with h | h
    · obtain ⟨v, hv1, hv2⟩ := hok.1 h
      refine ⟨v, hv1, by simp [verdictTruthy, hv2], ?_⟩
      rw [if_pos hv2, h]
    · obtain ⟨v, hv1, ht, hne⟩ := hok.2 h
      exact ⟨v, hv1, ht, by rw [if_neg hne, h]⟩
  unfold runTurn
  cases hw : runWalk tO vO db (mergeInbound s inp) L with
  | none => rfl
  | some r =>
    have hp := runWalk_refund tO vO db (mergeInbound s inp) L v
      (by rw [mergeInbound_image_verdict]; exact hv1) hv2
      (by rw [mergeInbound_refund_status]; exact hv3) r hw
    dsimp only
    rw [hp, mergeInbound_refund_status]

/-- Claim C2, counterexample: an invariant-violating state
(`refund_status = approved` but the memoized verdict is `acceptable`);
the next turn re-enters Decision, which flips `approved` to `denied`.
The walk that does this is the one of C3's counterexample: the email
re-prompt does not halt, so Decision re-executes on the stored verdict. -/
theorem c2_refund_status_stable_cex :
    ({ awaitEmailState with
         image_verdict := some ⟨some "acceptable", some "looks fine"⟩ } :
       AgentState).refund_status = "approved" ∧
    (runTurn oracleRefund visionDef dbOne
        { awaitEmailState with
            image_verdict := some ⟨some "acceptable", some "looks fine"⟩ }
        ⟨some "hello", none, none⟩ []).1.refund_status = "denied" := by decide

/-- Claim C2, witness: the amended statement at a concrete approved,
invariant-satisfying session. -/
theorem c2_refund_status_stable_witness :
    (awaitEmailState.refund_status = "approved" ∨
      awaitEmailState.refund_status = "denied") ∧
    okInv awaitEmailState ∧
    (runTurn oracleRefund visionDef dbOne awaitEmailState
        ⟨some "hello", none, none⟩ []).1.refund_status =
      awaitEmailState.refund_status :=
  ⟨Or.inl rfl,
   ⟨fun _ => ⟨⟨some "defective", some "crushed box"⟩, rfl, rfl⟩,
    fun hd => absurd hd (by decide)⟩,
   c2_refund_status_stable oracleRefund visionDef dbOne awaitEmailState
     ⟨some "hello", none, none⟩ [] (Or.inl rfl)
     ⟨fun _ => ⟨⟨some "defective", some "crushed box"⟩, rfl, rfl⟩,
      fun hd => absurd hd (by decide)⟩⟩
